import Mathlib

/-!
Verification of the geebee Game Boy emulator core against its
natural-language specification.  The Rust sources are shallowly embedded:
machine bytes and words are `Nat` with explicit `% 256` / `% 65536`
wrapping, `Vec` indexing is a total function or `List.getD`, and code
that can trap (index panics, overflow-checked subtraction) is embedded
through `Option`.  Definitions follow the structure of the source files
`bytes.rs`, `timer.rs`, `cart.rs`, `memory.rs`, `cpu.rs` and `lcd.rs`.
-/

namespace GeeBee

/-! ## bytes.rs -/

/-- Source `bytes::extract`: split a 16-bit word into (high, low). -/
def bytesExtract (value : Nat) : Nat × Nat :=
  ((value &&& 0xff00) >>> 8, value &&& 0x00ff)

/-- Source `bytes::assemble`: join (high, low) into a 16-bit word. -/
def bytesAssemble (high low : Nat) : Nat :=
  ((high <<< 8) ||| low) % 65536

/-! ## timer.rs -/

/-- Source struct `SubTimer`: accumulator `timer`, 8-bit `value`, `rate`. -/
structure SubTimer where
  timer : Nat
  value : Nat
  rate : Nat
  deriving Repr, DecidableEq

/-- The `while self.timer > self.rate` loop body of `SubTimer::inc`,
written with explicit fuel so that it is structurally recursive.  Each
iteration subtracts `rate` from the accumulator, so when `rate ≥ 1` the
loop runs at most `timer` times and fuel `timer` is exact; the source
would not terminate when `rate = 0` and the accumulator exceeds it, a
state no constructor of the program produces (all rates are in
{16, 64, 256, 1024}).  Returns (accumulator, value, overflow). -/
def subTimerLoop : Nat → Nat → Nat → Nat → Nat × Nat × Bool
  | 0, t, v, _ => (t, v, false)
  | fuel + 1, t, v, r =>
    if r < t then
      let rest := subTimerLoop fuel (t - r) ((v + 1) % 256) r
      (rest.1, rest.2.1, rest.2.2 || (((v + 1) % 256) == 0))
    else (t, v, false)

/-- Source `SubTimer::inc`: add the elapsed cycles to the accumulator,
then run the subtract-and-increment loop; reports whether the 8-bit
value wrapped to 0. -/
def SubTimer.inc (s : SubTimer) (value : Nat) : SubTimer × Bool :=
  let r := subTimerLoop (s.timer + value) (s.timer + value) s.value s.rate
  ({ s with timer := r.1, value := r.2.1 }, r.2.2)

/-- Source `SubTimer::set_timer`: set the 8-bit value only. -/
def SubTimer.setTimer (s : SubTimer) (value : Nat) : SubTimer :=
  { s with value := value }

/-- Source `SubTimer::set_rate`. -/
def SubTimer.setRate (s : SubTimer) (rate : Nat) : SubTimer :=
  { s with rate := rate }

/-- Source struct `TAC`: enable bit and 2-bit clock select. -/
structure TAC where
  start : Bool
  clock : Nat
  deriving Repr, DecidableEq

/-- Source `From<u8> for TAC`. -/
def TAC.fromU8 (other : Nat) : TAC :=
  { start := other &&& 0x04 != 0, clock := other &&& 0x03 }

/-- Source `From<TAC> for u8`. -/
def TAC.toU8 (t : TAC) : Nat :=
  t.clock ||| (if t.start then 0x04 else 0x00)

/-- Source `TAC::rate`.  The `_` arm of the source is a panic that is
unreachable because `clock` is always masked with 0x03; it is mapped to
0 here. -/
def TAC.rate (t : TAC) : Nat :=
  match t.clock with
  | 0x00 => 1024
  | 0x01 => 16
  | 0x02 => 64
  | 0x03 => 256
  | _ => 0

/-- Source struct `Timer`. -/
structure Timer where
  div : SubTimer
  tima : SubTimer
  tma : Nat
  tac : TAC
  deriving Repr, DecidableEq

/-- Source `Timer::new`. -/
def Timer.new : Timer :=
  { div := ⟨0, 0, (TAC.fromU8 0x03).rate⟩
    tima := ⟨0, 0, (TAC.fromU8 0x00).rate⟩
    tma := 0
    tac := TAC.fromU8 0 }

/-- Source `Timer::advance`: always advance DIV; advance TIMA only when
TAC bit 2 is set; on TIMA overflow reload it from TMA and report the
overflow to the caller. -/
def Timer.advance (t : Timer) (timing : Nat) : Timer × Bool :=
  let t := { t with div := (t.div.inc timing).1 }
  if !t.tac.start then
    (t, false)
  else
    let r := t.tima.inc timing
    let tima' := if r.2 then r.1.setTimer t.tma else r.1
    ({ t with tima := tima' }, r.2)

/-- Source `Timer::set_tac`: store the control byte and update TIMA's
rate. -/
def Timer.setTac (t : Timer) (value : Nat) : Timer :=
  let tac := TAC.fromU8 value
  { t with tac := tac, tima := t.tima.setRate tac.rate }

/-- Source `Timer::reset_div`. -/
def Timer.resetDiv (t : Timer) : Timer :=
  { t with div := t.div.setTimer 0 }

/-- Source `Timer::set_tima`. -/
def Timer.setTima (t : Timer) (value : Nat) : Timer :=
  { t with tima := t.tima.setTimer value }

/-- Source `Timer::set_tma`. -/
def Timer.setTma (t : Timer) (value : Nat) : Timer :=
  { t with tma := value }

/-! ## cpu.rs: register file and flags -/

/-- Source struct `Flags` (four booleans). -/
structure Flags where
  zero : Bool
  carry : Bool
  addSub : Bool
  halfCarry : Bool
  deriving Repr, DecidableEq

/-- Source `Flags::default` (all false). -/
def Flags.default : Flags := ⟨false, false, false, false⟩

/-- Source `From<u8> for Flags`. -/
def Flags.fromU8 (f : Nat) : Flags :=
  { zero := f &&& 0x80 != 0
    carry := f &&& 0x40 != 0
    addSub := f &&& 0x20 != 0
    halfCarry := f &&& 0x10 != 0 }

/-- Source `From<Flags> for u8`. -/
def Flags.toU8 (f : Flags) : Nat :=
  (if f.zero then 0x80 else 0) ||| (if f.carry then 0x40 else 0) |||
    (if f.addSub then 0x20 else 0) ||| (if f.halfCarry then 0x10 else 0)

/-- Source struct `Registers`: eight 8-bit registers, F held as flags. -/
structure Registers where
  a : Nat
  f : Flags
  b : Nat
  c : Nat
  d : Nat
  e : Nat
  h : Nat
  l : Nat
  deriving Repr, DecidableEq

/-- Source `Registers::default` (all zero). -/
def Registers.default : Registers := ⟨0, Flags.default, 0, 0, 0, 0, 0, 0⟩

/-- Source `Registers::af`. -/
def Registers.af (r : Registers) : Nat := ((r.a <<< 8) ||| r.f.toU8) % 65536

/-- Source `Registers::set_af`, with the masks exactly as written in the
source (`af & 0xf0` and `af & 0x0f`). -/
def Registers.setAf (r : Registers) (af : Nat) : Registers :=
  { r with a := ((af &&& 0xf0) >>> 8) % 256, f := Flags.fromU8 ((af &&& 0x0f) % 256) }

/-- Source `Registers::bc`. -/
def Registers.bc (r : Registers) : Nat := ((r.b <<< 8) ||| r.c) % 65536

/-- Source `Registers::set_bc`, masks exactly as written in the source. -/
def Registers.setBc (r : Registers) (bc : Nat) : Registers :=
  { r with b := ((bc &&& 0xf0) >>> 8) % 256, c := (bc &&& 0x0f) % 256 }

/-- Source `Registers::de`. -/
def Registers.de (r : Registers) : Nat := ((r.d <<< 8) ||| r.e) % 65536

/-- Source `Registers::set_de`, masks exactly as written in the source. -/
def Registers.setDe (r : Registers) (de : Nat) : Registers :=
  { r with d := ((de &&& 0xf0) >>> 8) % 256, e := (de &&& 0x0f) % 256 }

/-- Source `Registers::hl`. -/
def Registers.hl (r : Registers) : Nat := ((r.h <<< 8) ||| r.l) % 65536

/-- Source `Registers::set_hl`, masks exactly as written in the source. -/
def Registers.setHl (r : Registers) (hl : Nat) : Registers :=
  { r with h := ((hl &&& 0xf0) >>> 8) % 256, l := (hl &&& 0x0f) % 256 }

/-! ## cpu.rs: pure arithmetic helpers

These operations read and write only the register file, so they are
embedded as functions on `Registers` returning the updated registers and
the cycle cost. -/

/-- Source `CPU::op_inc` on a byte. -/
def opInc (r : Registers) (value : Nat) : Registers × Nat × Nat :=
  let f := { r.f with addSub := false, halfCarry := (value &&& 0x0f) == 0x0f }
  let value := (value + 1) % 256
  let f := { f with zero := value == 0 }
  ({ r with f := f }, value, 4)

/-- Source `CPU::op_dec` on a byte. -/
def opDec (r : Registers) (value : Nat) : Registers × Nat × Nat :=
  let f := { r.f with addSub := true, halfCarry := (value &&& 0x0f) == 0x00 }
  let value := (value + 255) % 256
  let f := { f with zero := value == 0 }
  ({ r with f := f }, value, 4)

/-- Source `CPU::op_add_hl`: the carry flag comes from the 16-bit
addition, while the half-carry flag is the carry of
`low(HL).overflowing_add(low(word))`, i.e. an 8-bit (bit-7) carry of the
low bytes, exactly as the source computes it.  The result goes through
the source's `set_hl`. -/
def opAddHl (r : Registers) (word : Nat) : Registers × Nat :=
  let f := { r.f with addSub := false }
  let sum := r.hl + word
  let value := sum % 65536
  let carry := decide (sum ≥ 65536)
  let half := decide ((bytesExtract r.hl).2 + (bytesExtract word).2 ≥ 256)
  let r := { r with f := { f with carry := carry, halfCarry := half } }
  (r.setHl value, 8)

/-- Source `CPU::op_sub`.  Rust's `overflowing_sub` supplies the wrapped
result and borrow, but the half-carry expression
`(self.regs.a & 0xf0) - (value & 0xf0)` (where `value` is by then the
wrapped result) uses plain `u8` subtraction, which traps when the right
operand exceeds the left in an overflow-checked build; that trap is
embedded as `none`. -/
def opSub (r : Registers) (value : Nat) : Option (Registers × Nat) :=
  let a := r.a
  let result := (a + 256 - value % 256) % 256
  let carry := decide (a < value % 256)
  if (a &&& 0xf0) < (result &&& 0xf0) then
    none
  else
    let half := decide ((a &&& 0xf0) - (result &&& 0xf0) ≤ 0xf)
    let f := { r.f with addSub := true, carry := carry, halfCarry := half,
                        zero := result == 0 }
    some ({ r with a := result, f := f }, 4)

/-- Source `CPU::op_cp`: run `op_sub` and restore A. -/
def opCp (r : Registers) (value : Nat) : Option (Registers × Nat) :=
  let a := r.a
  match opSub r value with
  | none => none
  | some (r', _) => some ({ r' with a := a }, 4)

/-! ## cart.rs -/

/-- Wrapping 8-bit subtraction (`u8::overflowing_sub(..).0`) for a left
operand below 256. -/
def u8sub (x y : Nat) : Nat := (x + 256 - y % 256) % 256

/-- Source enum `Controller`. -/
inductive Controller where
  | nothing
  | mbc1
  | mbc2
  | mbc3
  | mbc4
  | mbc5
  deriving Repr, DecidableEq

/-- Source struct `CartType`. -/
structure CartType where
  controller : Controller
  ram : Bool
  battery : Bool
  timer : Bool
  rumble : Bool
  deriving Repr, DecidableEq

/-- Source `CartType::default` (controller None, all flags false). -/
def CartType.default : CartType := ⟨.nothing, false, false, false, false⟩

/-- Source `From<u8> for CartType`.  The `_` arm of the source panics
("unable to handle cartridge type"); that abort is embedded as `none`. -/
def CartType.fromU8 (t : Nat) : Option CartType :=
  match t with
  | 0x00 => some { CartType.default with controller := .nothing }
  | 0x01 => some { CartType.default with controller := .mbc1, ram := true }
  | 0x03 => some { CartType.default with controller := .mbc1, ram := true, battery := true }
  | 0x05 => some { CartType.default with controller := .mbc2 }
  | 0x06 => some { CartType.default with controller := .mbc2, battery := true }
  | 0x08 => some { CartType.default with controller := .nothing, ram := true }
  | 0x09 => some { CartType.default with controller := .nothing, ram := true, battery := true }
  | 0x0f => some { CartType.default with controller := .mbc3, timer := true, battery := true }
  | 0x10 => some { CartType.default with controller := .mbc3, timer := true, ram := true, battery := true }
  | 0x11 => some { CartType.default with controller := .mbc3 }
  | 0x12 => some { CartType.default with controller := .mbc3, ram := true }
  | 0x13 => some { CartType.default with controller := .mbc3, ram := true, battery := true }
  | 0x15 => some { CartType.default with controller := .mbc4 }
  | 0x16 => some { CartType.default with controller := .mbc4, ram := true }
  | 0x17 => some { CartType.default with controller := .mbc4, ram := true, battery := true }
  | 0x19 => some { CartType.default with controller := .mbc5 }
  | 0x1a => some { CartType.default with controller := .mbc5, ram := true }
  | 0x1b => some { CartType.default with controller := .mbc5, ram := true, battery := true }
  | 0x1c => some { CartType.default with controller := .mbc5, rumble := true }
  | 0x1d => some { CartType.default with controller := .mbc5, rumble := true, ram := true }
  | 0x1e => some { CartType.default with controller := .mbc5, rumble := true, ram := true, battery := true }
  | _ => none

/-- Source enum `Error` of cart.rs, restricted to the variants reachable
from `with_data` (the `Io` variant belongs to file loading, which is out
of scope); `unsupportedType` stands for the panic in `CartType::from`. -/
inductive CartError where
  | invalidRom
  | checksumFailed
  | strError
  | unsupportedType
  deriving Repr, DecidableEq

/-- Source struct `Cartridge`; the title is kept as its raw bytes and
the ROM image as a byte list. -/
structure Cartridge where
  title : List Nat
  cartType : CartType
  cgb : Bool
  sgb : Bool
  data : List Nat
  deriving Repr, DecidableEq

/-- Source `Cartridge::new` (title "EMPTY"). -/
def Cartridge.new : Cartridge :=
  { title := [0x45, 0x4d, 0x50, 0x54, 0x59]
    cartType := CartType.default
    cgb := false
    sgb := false
    data := [] }

/-- The checksum accumulator of `Cartridge::verify_checksum`: fold
`x = x − b − 1` (wrapping u8) over bytes 0x0134 ..= 0x014C. -/
def headerChecksum (data : List Nat) : Nat :=
  ((data.take (0x14c + 1)).drop 0x0134).foldl (fun x i => u8sub (u8sub x i) 1) 0

/-- Source `Cartridge::verify_checksum`.  Indexing `data[0x014d]` would
panic on a short buffer; callers have already checked
`data.len() ≥ 16384`, so the in-bounds read is written with `getD`. -/
def Cartridge.verifyChecksum (data : List Nat) : Except CartError Unit :=
  if headerChecksum data ≠ data.getD 0x014d 0 then
    .error .checksumFailed
  else
    .ok ()

/-- Whether a byte is a legal UTF-8 continuation byte. -/
def utf8Cont (b : Nat) : Bool := 0x80 ≤ b && b ≤ 0xbf

/-- Validity check of `String::from_utf8` (RFC 3629 well-formedness),
used by `with_data` for the 11 title bytes. -/
def utf8Valid : List Nat → Bool
  | [] => true
  | b0 :: rest =>
    if b0 ≤ 0x7f then utf8Valid rest
    else
      match rest with
      | [] => false
      | b1 :: rest1 =>
        if 0xc2 ≤ b0 && b0 ≤ 0xdf then utf8Cont b1 && utf8Valid rest1
        else
          match rest1 with
          | [] => false
          | b2 :: rest2 =>
            if b0 == 0xe0 then
              (0xa0 ≤ b1 && b1 ≤ 0xbf) && utf8Cont b2 && utf8Valid rest2
            else if (0xe1 ≤ b0 && b0 ≤ 0xec) || b0 == 0xee || b0 == 0xef then
              utf8Cont b1 && utf8Cont b2 && utf8Valid rest2
            else if b0 == 0xed then
              (0x80 ≤ b1 && b1 ≤ 0x9f) && utf8Cont b2 && utf8Valid rest2
            else
              match rest2 with
              | [] => false
              | b3 :: rest3 =>
                if b0 == 0xf0 then
                  (0x90 ≤ b1 && b1 ≤ 0xbf) && utf8Cont b2 && utf8Cont b3 && utf8Valid rest3
                else if 0xf1 ≤ b0 && b0 ≤ 0xf3 then
                  utf8Cont b1 && utf8Cont b2 && utf8Cont b3 && utf8Valid rest3
                else if b0 == 0xf4 then
                  (0x80 ≤ b1 && b1 ≤ 0x8f) && utf8Cont b2 && utf8Cont b3 && utf8Valid rest3
                else false

/-- Source `Cartridge::with_data`: reject buffers under 16384 bytes,
verify the header checksum, decode the 11-byte title (a UTF-8 failure is
the source's `Str` error), decode the cartridge type (the source panics
on an unknown type byte), then fill in the CGB/SGB flags and keep the
data. -/
def Cartridge.withData (c : Cartridge) (data : List Nat) : Except CartError Cartridge :=
  if data.length < 16384 then
    .error .invalidRom
  else
    match Cartridge.verifyChecksum data with
    | .error e => .error e
    | .ok _ =>
      let titleBytes := (data.drop 0x0134).take 11
      if !utf8Valid titleBytes then
        .error .strError
      else
        match CartType.fromU8 (data.getD 0x0147 0) with
        | none => .error .unsupportedType
        | some ct =>
          .ok { c with
                title := titleBytes
                cartType := ct
                cgb := data.getD 0x0143 0 == 0x80 || data.getD 0x0143 0 == 0xc0
                sgb := data.getD 0x0146 0 == 0x03
                data := data }

/-! ## memory.rs -/

/-- Pointwise update of a byte array modelled as a function. -/
def upd (f : Nat → Nat) (i v : Nat) : Nat → Nat :=
  fun j => if j = i then v else f j

/-- Source struct `Memory`; the fixed-size byte arrays are modelled as
functions from index to byte. -/
structure Memory where
  cart : Cartridge
  workRam : Nat → Nat
  externalRam : Nat → Nat
  highRam : Nat → Nat
  video : Nat → Nat
  oam : Nat → Nat
  io : Nat → Nat
  bootrom : List Nat
  booting : Bool
  romRamMode : Nat
  romBank : Nat
  workRamBank : Nat
  externalRamBank : Nat
  videoBank : Nat
  externalRamEnabled : Bool
  oamAccess : Bool
  vramAccess : Bool

/-- Source `Memory::new` (zeroed arrays, empty cartridge, not booting,
ROM and WRAM banks start at 1). -/
def Memory.new : Memory :=
  { cart := Cartridge.new
    workRam := fun _ => 0
    externalRam := fun _ => 0
    highRam := fun _ => 0
    video := fun _ => 0
    oam := fun _ => 0
    io := fun _ => 0
    bootrom := []
    booting := false
    romRamMode := 0
    romBank := 1
    workRamBank := 1
    externalRamBank := 0
    videoBank := 0
    externalRamEnabled := false
    oamAccess := true
    vramAccess := true }

/-- Source `Memory::with_cartridge`. -/
def Memory.withCartridge (m : Memory) (cart : Cartridge) : Memory :=
  { m with cart := cart }

/-- Source `Memory::read`.  The u16 match arms are rendered as an
ordered chain of range tests; `Vec` indexing of the ROM image uses
`getD` (in-bounds for the accesses exercised here). -/
def Memory.read (m : Memory) (address : Nat) : Nat :=
  if address ≤ 0x00ff then
    if m.booting then m.bootrom.getD address 0 else m.cart.data.getD address 0
  else if address ≤ 0x3fff then
    m.cart.data.getD address 0
  else if address ≤ 0x7fff then
    m.cart.data.getD (0x4000 * m.romBank + (address - 0x4000)) 0
  else if address ≤ 0x9fff then
    if !m.vramAccess then 0x00
    else m.video (0x2000 * m.videoBank + (address - 0x8000))
  else if address ≤ 0xbfff then
    if m.externalRamEnabled then
      m.externalRam (0x1000 * m.externalRamBank + (address - 0xa000))
    else 0
  else if (0xc000 ≤ address ∧ address ≤ 0xcfff) ∨ (0xe000 ≤ address ∧ address ≤ 0xefff) then
    m.workRam (address &&& 0x0fff)
  else if (0xd000 ≤ address ∧ address ≤ 0xdfff) ∨ (0xf000 ≤ address ∧ address ≤ 0xfdff) then
    m.workRam ((m.workRamBank * 0x1000) ||| (address &&& 0x0fff))
  else if 0xfe00 ≤ address ∧ address ≤ 0xfe9f then
    if m.oamAccess then m.oam (address - 0xfe00) else 0x00
  else if 0xfea0 ≤ address ∧ address ≤ 0xfeff then
    0
  else if address = 0xff70 then
    m.workRamBank
  else if 0xff00 ≤ address ∧ address ≤ 0xff7f then
    m.io (address - 0xff00)
  else if 0xff80 ≤ address ∧ address ≤ 0xfffe then
    m.highRam (address - 0xff80)
  else
    0

/-- Source `Memory::write`.  The 0xFFFF arm of the source is
`panic!("tried accessing regs")`; that abort is embedded as `none`
(the CPU's own write dispatch routes 0xFFFF to the interrupt-enable
register before ever reaching `Memory::write`). -/
def Memory.write (m : Memory) (address value : Nat) : Option Memory :=
  if address ≤ 0x1fff then
    some { m with externalRamEnabled :=
      match m.cart.cartType.controller with
      | .mbc1 => (value &&& 0x0f) == 0x0a
      | .mbc2 | .mbc3 =>
        if address &&& 0x0100 = 0 then !m.externalRamEnabled else m.externalRamEnabled
      | _ => m.externalRamEnabled }
  else if address ≤ 0x3fff then
    some { m with romBank :=
      match m.cart.cartType.controller with
      | .mbc1 =>
        let v := value &&& 0x1f
        let v := if v = 0x00 ∨ v = 0x20 ∨ v = 0x40 ∨ v = 0x60 then v + 0x01 else v
        (m.romBank &&& 0xef) ||| (v &&& 0x1f)
      | .mbc2 =>
        if address &&& 0x0100 = 0 then m.romBank
        else
          let v := value &&& 0x0f
          if v = 0x00 ∨ v = 0x20 ∨ v = 0x40 ∨ v = 0x60 then v + 0x01 else v
      | _ => value }
  else if address ≤ 0x5fff then
    some (match m.cart.cartType.controller with
      | .mbc1 =>
        if m.romRamMode = 0x01 then
          { m with externalRamBank := value &&& 0x03 }
        else
          { m with romBank := (m.romBank &&& 0xcf) ||| ((value &&& 0x03) <<< 4) }
      | _ => m)
  else if address ≤ 0x7fff then
    some (match m.cart.cartType.controller with
      | .mbc1 =>
        let m := { m with romRamMode := value &&& 0x01 }
        if m.romRamMode = 0x00 then
          { m with externalRamBank := 0 }
        else
          { m with romBank := m.romBank &&& 0x1f }
      | _ => m)
  else if address ≤ 0x9fff then
    some (if m.vramAccess then
      { m with video := upd m.video (0x2000 * m.videoBank + (address - 0x8000)) value }
    else m)
  else if address ≤ 0xbfff then
    some (if m.externalRamEnabled then
      { m with externalRam := upd m.externalRam (0x1000 * m.externalRamBank + (address - 0xa000)) value }
    else m)
  else if (0xc000 ≤ address ∧ address ≤ 0xcfff) ∨ (0xe000 ≤ address ∧ address ≤ 0xefff) then
    some { m with workRam := upd m.workRam (address &&& 0x0fff) value }
  else if (0xd000 ≤ address ∧ address ≤ 0xdfff) ∨ (0xf000 ≤ address ∧ address ≤ 0xfdff) then
    some { m with workRam := upd m.workRam ((m.workRamBank * 0x1000) ||| (address &&& 0x0fff)) value }
  else if 0xfe00 ≤ address ∧ address ≤ 0xfe9f then
    some (if m.oamAccess then { m with oam := upd m.oam (address - 0xfe00) value } else m)
  else if 0xfea0 ≤ address ∧ address ≤ 0xfeff then
    some m
  else if address = 0xff70 then
    some { m with workRamBank := if value &&& 0x07 = 0 then 1 else value &&& 0x07 }
  else if (0xff00 ≤ address ∧ address ≤ 0xff6f) ∨ (0xff71 ≤ address ∧ address ≤ 0xff7f) then
    some { m with io := upd m.io (address - 0xff00) value }
  else if 0xff80 ≤ address ∧ address ≤ 0xfffe then
    some { m with highRam := upd m.highRam (address - 0xff80) value }
  else
    none

/-- Source `Memory::disable_booting`. -/
def Memory.disableBooting (m : Memory) : Memory :=
  { m with booting := false }

/-! ## cpu.rs: machine state and bus dispatch -/

/-- The LCD register file as the CPU's `handle_lcd_read/write` sees it
(`self.lcd.regs()`): one byte per register, each arm a plain field
load/store via the `From<u8>`/`Into<u8>` conversions. -/
structure LCDRegs where
  lcdc : Nat
  stat : Nat
  scy : Nat
  scx : Nat
  ly : Nat
  lyc : Nat
  bgp : Nat
  obp0 : Nat
  obp1 : Nat
  wy : Nat
  wx : Nat
  deriving Repr, DecidableEq

/-- An all-zero LCD register file. -/
def LCDRegs.zero : LCDRegs := ⟨0, 0, 0, 0, 0, 0, 0, 0, 0, 0, 0⟩

/-- Source struct `CPU`: memory, LCD register view, register file,
interrupt controller (`enabled`/`enable`/`flag` flattened to
`ime`/`ie`/`iflag`), timer, serial port, halt flag, SP and PC. -/
structure CPUState where
  mem : Memory
  lcdRegs : LCDRegs
  regs : Registers
  ime : Bool
  ie : Nat
  iflag : Nat
  timer : Timer
  serial : List Nat
  serialControl : Nat
  halt : Bool
  sp : Nat
  pc : Nat

/-- Source `CPU::new`: the register file, interrupt state, SP and PC all
start from their `Default` (zero) values. -/
def CPU.new (mem : Memory) (lcd : LCDRegs) : CPUState :=
  { mem := mem
    lcdRegs := lcd
    regs := Registers.default
    ime := false
    ie := 0
    iflag := 0
    timer := Timer.new
    serial := []
    serialControl := 0
    halt := false
    sp := 0
    pc := 0 }

/-- Source `CPU::handle_lcd_read`: a field load per register; 0xFF46
reads as 0.  The `_` arm of the source is `unreachable!()` (the caller
only passes 0xFF40..=0xFF4B) and is mapped to 0. -/
def CPU.handleLcdRead (s : CPUState) (address : Nat) : Nat :=
  if address = 0xff40 then s.lcdRegs.lcdc
  else if address = 0xff41 then s.lcdRegs.stat
  else if address = 0xff42 then s.lcdRegs.scy
  else if address = 0xff43 then s.lcdRegs.scx
  else if address = 0xff44 then s.lcdRegs.ly
  else if address = 0xff45 then s.lcdRegs.lyc
  else if address = 0xff46 then 0
  else if address = 0xff47 then s.lcdRegs.bgp
  else if address = 0xff48 then s.lcdRegs.obp0
  else if address = 0xff49 then s.lcdRegs.obp1
  else if address = 0xff4a then s.lcdRegs.wy
  else if address = 0xff4b then s.lcdRegs.wx
  else 0

/-- Source `CPU::read`: I/O dispatch for the timer, interrupt and LCD
registers, falling through to `Memory::read`. -/
def CPU.read (s : CPUState) (address : Nat) : Nat :=
  if address = 0xff04 then s.timer.div.value
  else if address = 0xff05 then s.timer.tima.value
  else if address = 0xff06 then s.timer.tma
  else if address = 0xff07 then s.timer.tac.toU8
  else if address = 0xff0f then s.iflag
  else if 0xff40 ≤ address ∧ address ≤ 0xff4b then CPU.handleLcdRead s address
  else if address = 0xff50 then 0
  else if address = 0xffff then s.ie
  else s.mem.read address

/-- The 0xFF46 arm of `CPU::handle_lcd_write` (OAM DMA): for each of the
160 offsets, read `value<<8 | i` through `CPU::read` and store it at
`0xFE00 + i` through `self.write`.  In the CPU write dispatch the
destination 0xFE00..=0xFE9F always falls through to `Memory::write`, so
that recursive call is written as the memory-level write directly (its
`none` case, the 0xFFFF panic, is unreachable at these addresses). -/
def CPU.dmaCopy (s : CPUState) (value : Nat) : CPUState :=
  (List.range 0xa0).foldl
    (fun s i =>
      let v := CPU.read s ((value <<< 8) + i)
      { s with mem := (s.mem.write (0xfe00 + i) v).getD s.mem })
    s

/-- Source `CPU::handle_lcd_write`: a field store per register, with the
0xFF46 arm performing OAM DMA.  The `_` arm of the source is
`unreachable!()` and is mapped to the identity. -/
def CPU.handleLcdWrite (s : CPUState) (address value : Nat) : CPUState :=
  if address = 0xff40 then { s with lcdRegs := { s.lcdRegs with lcdc := value } }
  else if address = 0xff41 then { s with lcdRegs := { s.lcdRegs with stat := value } }
  else if address = 0xff42 then { s with lcdRegs := { s.lcdRegs with scy := value } }
  else if address = 0xff43 then { s with lcdRegs := { s.lcdRegs with scx := value } }
  else if address = 0xff44 then { s with lcdRegs := { s.lcdRegs with ly := value } }
  else if address = 0xff45 then { s with lcdRegs := { s.lcdRegs with lyc := value } }
  else if address = 0xff46 then CPU.dmaCopy s value
  else if address = 0xff47 then { s with lcdRegs := { s.lcdRegs with bgp := value } }
  else if address = 0xff48 then { s with lcdRegs := { s.lcdRegs with obp0 := value } }
  else if address = 0xff49 then { s with lcdRegs := { s.lcdRegs with obp1 := value } }
  else if address = 0xff4a then { s with lcdRegs := { s.lcdRegs with wy := value } }
  else if address = 0xff4b then { s with lcdRegs := { s.lcdRegs with wx := value } }
  else s

/-- Source `CPU::write`: I/O dispatch mirroring `CPU::read`, falling
through to `Memory::write`.  The fall-through uses `getD`: the memory
write only aborts at 0xFFFF, which this dispatch intercepts above. -/
def CPU.write (s : CPUState) (address value : Nat) : CPUState :=
  if address = 0xff04 then { s with timer := s.timer.resetDiv }
  else if address = 0xff05 then { s with timer := s.timer.setTima value }
  else if address = 0xff06 then { s with timer := s.timer.setTma value }
  else if address = 0xff07 then { s with timer := s.timer.setTac value }
  else if address = 0xff0f then { s with iflag := value }
  else if 0xff40 ≤ address ∧ address ≤ 0xff4b then CPU.handleLcdWrite s address value
  else if address = 0xff50 then
    if value ≠ 0 then { s with mem := s.mem.disableBooting } else s
  else if address = 0xff01 then { s with serialControl := value }
  else if address = 0xff02 then { s with serial := s.serial ++ [s.serialControl] }
  else if address = 0xffff then { s with ie := value }
  else { s with mem := (s.mem.write address value).getD s.mem }

/-- Source `CPU::read_pc`: read the byte at PC and post-increment PC
with 16-bit wraparound. -/
def CPU.readPc (s : CPUState) : CPUState × Nat :=
  let value := CPU.read s s.pc
  ({ s with pc := (s.pc + 1) % 65536 }, value)

/-- Source `CPU::op_push`: write the high byte at SP, decrement SP,
write the low byte, decrement SP again (16-bit wrapping); 16 cycles. -/
def CPU.opPush (s : CPUState) (value : Nat) : CPUState × Nat :=
  let (high, low) := bytesExtract value
  let s := CPU.write s s.sp high
  let s := { s with sp := (s.sp + 65535) % 65536 }
  let s := CPU.write s s.sp low
  let s := { s with sp := (s.sp + 65535) % 65536 }
  (s, 16)

/-- Source `CPU::op_pop`: read the low byte at SP, increment SP, read
the high byte, increment SP again; assemble; 12 cycles. -/
def CPU.opPop (s : CPUState) : CPUState × Nat × Nat :=
  let low := CPU.read s s.sp
  let s := { s with sp := (s.sp + 1) % 65536 }
  let high := CPU.read s s.sp
  let s := { s with sp := (s.sp + 1) % 65536 }
  (s, bytesAssemble high low, 12)

/-- Source `CPU::op_ld_16`: fetch low then high immediate byte. -/
def CPU.opLd16 (s : CPUState) : CPUState × Nat × Nat :=
  let (s, low) := CPU.readPc s
  let (s, high) := CPU.readPc s
  (s, bytesAssemble high low, 12)

/-- Source `CPU::handle_interrupts`.  When IME is set and some enabled
interrupt is pending, the source iterates i = 0..=4 over the *request*
flags: every set IF bit is cleared, IME is cleared, PC is pushed and
re-vectored for each such bit in turn, halt is cleared, and 12 cycles
are reported.  Without IME (or with nothing enabled-and-pending), a
pending request wakes a halted CPU for 4 cycles. -/
def CPU.handleInterrupts (s : CPUState) : CPUState × Option Nat :=
  let hasInterrupt := decide (0 < (s.ie &&& s.iflag))
  if !s.ime || !hasInterrupt then
    if !s.ime && decide (0 < s.iflag) && s.halt then
      ({ s with halt := false }, some 4)
    else
      (s, none)
  else
    let s := [0, 1, 2, 3, 4].foldl
      (fun s i =>
        if s.iflag &&& (0x01 <<< i) = 0 then s
        else
          let s := { s with iflag := s.iflag &&& (0xff ^^^ (0x01 <<< i)), ime := false }
          let s := (CPU.opPush s s.pc).1
          { s with pc := 0x40 + i * 0x08, halt := false })
      s
    (s, some 12)

/-- Source `CPU::handle_op`, restricted to the decoder arms the claims
cite: 0x01 (LD BC,d16), the 0x1C/0x2C/0x3C INC and 0x1D/0x2D/0x3D DEC
arms exactly as written in the source (each stores its result into
`self.regs.c`), 0xC5 (PUSH BC) and 0xD1 (POP DE).  Every other opcode is
left as the identity here; none of them is exercised by the claims. -/
def CPU.handleOp (s : CPUState) (op : Nat) : CPUState × Nat :=
  match op with
  | 0x01 =>
    let (s, value, t) := CPU.opLd16 s
    ({ s with regs := s.regs.setBc value }, t)
  | 0x1c =>
    let (r, value, timing) := opInc s.regs s.regs.e
    ({ s with regs := { r with c := value } }, timing)
  | 0x2c =>
    let (r, value, timing) := opInc s.regs s.regs.l
    ({ s with regs := { r with c := value } }, timing)
  | 0x3c =>
    let (r, value, timing) := opInc s.regs s.regs.a
    ({ s with regs := { r with c := value } }, timing)
  | 0x1d =>
    let (r, value, timing) := opDec s.regs s.regs.e
    ({ s with regs := { r with c := value } }, timing)
  | 0x2d =>
    let (r, value, timing) := opDec s.regs s.regs.l
    ({ s with regs := { r with c := value } }, timing)
  | 0x3d =>
    let (r, value, timing) := opDec s.regs s.regs.a
    ({ s with regs := { r with c := value } }, timing)
  | 0xc5 => CPU.opPush s s.regs.bc
  | 0xd1 =>
    let (s, value, timing) := CPU.opPop s
    ({ s with regs := s.regs.setDe value }, timing)
  | _ => (s, 0)

/-- Source `CPU::handle_instruction`: fetch the opcode at PC and
execute it. -/
def CPU.handleInstruction (s : CPUState) : CPUState × Nat :=
  let (s, op) := CPU.readPc s
  CPU.handleOp s op

/-- Source `CPU::advance_timer`: advance the timer and, when it reports
a TIMA overflow, set interrupt-request bit 2. -/
def CPU.advanceTimer (s : CPUState) (timing : Nat) : CPUState :=
  let r := s.timer.advance timing
  let s := { s with timer := r.1 }
  if r.2 then { s with iflag := s.iflag ||| 0x04 } else s

/-! ## lcd.rs: the PPU mode state machine

`LCD::advance` drives four pieces of state that the mode machine reads
or writes: the STAT mode, the per-mode cycle accumulator `mode_timing`,
the line counter `LY` and its compare `LYC`, the STAT interrupt-enable
bits, the display-enable/`enabled` pair, `done_frame` and the OAM/VRAM
access gates, plus the interrupt request byte.  The parts of `advance`
that are omitted here touch none of these fields: `draw_line` writes
only screen pixels, and `hdma_transfer` (a no-op unless a CGB HDMA/GDMA
transfer was started) writes only the DMA source/destination/length
registers and VRAM. -/

/-- Source enum `Mode` of lcd.rs. -/
inductive LCDMode where
  | hblank
  | vblank
  | oam
  | vram
  deriving Repr, DecidableEq

/-- The state of `LCD::advance`'s mode machine (see the section
comment). -/
structure LCDMachine where
  mode : LCDMode
  modeTiming : Nat
  ly : Nat
  lyc : Nat
  lycEnable : Bool
  mode2oam : Bool
  mode1vblank : Bool
  mode0hblank : Bool
  coincidence : Bool
  displayEnable : Bool
  enabled : Bool
  doneFrame : Bool
  oamAccess : Bool
  vramAccess : Bool
  iflag : Nat
  deriving Repr, DecidableEq

/-- Source `LCD::set_mode`: no-op when the mode is unchanged; otherwise
store it, raise STAT (bit 1) when the matching enable bit is set, and
raise VBlank (bit 0) on entering mode 1. -/
def LCDMachine.setMode (s : LCDMachine) (mode : LCDMode) : LCDMachine :=
  if s.mode = mode then s
  else
    let s := { s with mode := mode }
    let s :=
      if (mode = .hblank ∧ s.mode0hblank) ∨ (mode = .vblank ∧ s.mode1vblank) ∨
          (mode = .oam ∧ s.mode2oam) then
        { s with iflag := s.iflag ||| 0x02 }
      else s
    if mode = .vblank then { s with iflag := s.iflag ||| 0x01 } else s

/-- The mode-transition `match` of `LCD::advance`, applied after the
accumulator has been bumped by the elapsed cycles.  `LY` is an 8-bit
register, so its updates wrap at 256. -/
def LCDMachine.modeStep (s : LCDMachine) : LCDMachine :=
  match s.mode with
  | .oam =>
    if s.modeTiming ≥ 80 then
      ({ s with modeTiming := s.modeTiming - 80 }).setMode .vram
    else s
  | .vram =>
    if s.modeTiming ≥ 172 then
      ({ s with modeTiming := s.modeTiming - 172 }).setMode .hblank
    else s
  | .hblank =>
    if s.modeTiming ≥ 204 then
      let s := { s with modeTiming := s.modeTiming - 204, ly := (s.ly + 1) % 256 }
      s.setMode (if s.ly ≥ 144 then .vblank else .oam)
    else s
  | .vblank =>
    if s.modeTiming ≥ 4560 then
      let s := s.setMode .oam
      { s with modeTiming := s.modeTiming - 4560, ly := 0, doneFrame := true }
    else
      { s with ly := (s.modeTiming / 456 + 144) % 256 }

/-- The LY = LYC coincidence update and its STAT interrupt, from the
tail of `LCD::advance`. -/
def LCDMachine.lycCheck (s : LCDMachine) : LCDMachine :=
  let s := { s with coincidence := s.ly == s.lyc }
  if s.coincidence && s.lycEnable then { s with iflag := s.iflag ||| 0x02 } else s

/-- The OAM/VRAM access gating from the tail of `LCD::advance`. -/
def LCDMachine.accessGate (s : LCDMachine) : LCDMachine :=
  match s.mode with
  | .oam => { s with oamAccess := false, vramAccess := true }
  | .vram => { s with oamAccess := false, vramAccess := false }
  | _ => { s with oamAccess := true, vramAccess := true }

/-- Source `LCD::advance` (mode-machine fields; see the section
comment). -/
def LCDMachine.advance (s : LCDMachine) (timing : Nat) : LCDMachine :=
  let s := { s with doneFrame := false, oamAccess := true, vramAccess := true }
  if !s.displayEnable then
    if s.enabled then
      let s := { s with ly := 0 }
      let s := s.setMode .hblank
      { s with modeTiming := 0, enabled := false }
    else s
  else
    let s :=
      if !s.enabled then { s.setMode .oam with modeTiming := 0, enabled := true } else s
    let s := { s with modeTiming := s.modeTiming + timing }
    (s.modeStep.lycCheck).accessGate

/-- Iterate `LCD::advance` with single-cycle steps. -/
def LCDMachine.ticks (s : LCDMachine) : Nat → LCDMachine
  | 0 => s
  | n + 1 => (s.ticks n).advance 1

/-- The (mode, accumulator, LY) projection of the machine, on which the
mode transitions operate. -/
structure ModeProj where
  mode : LCDMode
  t : Nat
  ly : Nat
  deriving Repr, DecidableEq

/-- Project an `LCDMachine` to its mode-transition components. -/
def LCDMachine.proj (s : LCDMachine) : ModeProj := ⟨s.mode, s.modeTiming, s.ly⟩

/-- The action of a single-cycle `LCD::advance` (display enabled) on the
(mode, accumulator, LY) projection. -/
def modeTick (p : ModeProj) : ModeProj :=
  let t := p.t + 1
  match p.mode with
  | .oam => if t ≥ 80 then ⟨.vram, t - 80, p.ly⟩ else ⟨.oam, t, p.ly⟩
  | .vram => if t ≥ 172 then ⟨.hblank, t - 172, p.ly⟩ else ⟨.vram, t, p.ly⟩
  | .hblank =>
    if t ≥ 204 then
      let ly := (p.ly + 1) % 256
      ⟨if ly ≥ 144 then .vblank else .oam, t - 204, ly⟩
    else ⟨.hblank, t, p.ly⟩
  | .vblank =>
    if t ≥ 4560 then ⟨.oam, t - 4560, 0⟩
    else ⟨.vblank, t, (t / 456 + 144) % 256⟩

/-- Iterate `modeTick`. -/
def modeTicks (p : ModeProj) : Nat → ModeProj
  | 0 => p
  | n + 1 => modeTick (modeTicks p n)

/-- Closed form of the projection along a visible scanline that starts
in mode 2 with a zero accumulator on line `ly`. -/
def lineModeAt (ly t : Nat) : ModeProj :=
  if t < 80 then ⟨.oam, t, ly⟩
  else if t < 252 then ⟨.vram, t - 80, ly⟩
  else if t < 456 then ⟨.hblank, t - 252, ly⟩
  else ⟨if ly + 1 ≥ 144 then .vblank else .oam, 0, ly + 1⟩

/-- Closed form of the projection from the start of VBlank
(mode 1, zero accumulator, line 144). -/
def vblankModeAt (t : Nat) : ModeProj :=
  if t < 4560 then ⟨.vblank, t, t / 456 + 144⟩ else ⟨.oam, 0, 0⟩

/-! ## Concrete scenario states used by the claim theorems -/

/-- Interrupt-dispatch scenario: IME set, IE = 0x01, IF = 0x03 (bits 0
and 1 pending, only bit 0 enabled), PC = 0x1234, SP = 0xFFFE. -/
def interruptDemo : CPUState :=
  { CPU.new Memory.new LCDRegs.zero with
    ime := true, ie := 0x01, iflag := 0x03, pc := 0x1234, sp := 0xfffe }

/-- Machine code of `LD BC,0x0102; PUSH BC; POP DE` (little-endian
immediate). -/
def pushPopProgram : List Nat := [0x01, 0x02, 0x01, 0xc5, 0xd1]

/-- Fresh CPU over a cartridge holding `pushPopProgram` at address 0,
with SP = 0xFFFE and everything else zero. -/
def pushPopStart : CPUState :=
  { CPU.new (Memory.new.withCartridge { Cartridge.new with data := pushPopProgram })
      LCDRegs.zero with
    sp := 0xfffe }

/-- State after `LD BC,0x0102; PUSH BC`. -/
def pushPopAfterPush : CPUState :=
  (CPU.handleInstruction (CPU.handleInstruction pushPopStart).1).1

/-- State after the full `LD BC,0x0102; PUSH BC; POP DE` program. -/
def pushPopFinal : CPUState :=
  (CPU.handleInstruction pushPopAfterPush).1

/-- Registers with HL = 0x0800 for the ADD HL flag scenario. -/
def addHlDemoRegs : Registers := { Registers.default with h := 0x08, l := 0x00 }

/-- Registers with A = 0x09, C = 0x00, E = 0x05, L = 0x07 for the
INC/DEC register-writeback scenario. -/
def incDecDemoRegs : Registers :=
  { Registers.default with a := 0x09, c := 0x00, e := 0x05, l := 0x07 }

/-- CPU wrapping `incDecDemoRegs`. -/
def incDecDemo : CPUState :=
  { CPU.new Memory.new LCDRegs.zero with regs := incDecDemoRegs }

/-- Timer in the steady state at the point of TIMA wraparound: rate 1024
with the accumulator full, TIMA = 0xFF, TMA = 0x42. -/
def timerWrapDemo : CPUState :=
  { CPU.new Memory.new LCDRegs.zero with
    timer := { div := ⟨0, 0, 256⟩, tima := ⟨1024, 255, 1024⟩, tma := 0x42, tac := ⟨true, 0⟩ } }

/-- LCD machine at the start of a visible scanline (mode 2, zero
accumulator, line 0), display enabled. -/
def lcdLineDemo : LCDMachine :=
  { mode := .oam, modeTiming := 0, ly := 0, lyc := 0, lycEnable := false
    mode2oam := false, mode1vblank := false, mode0hblank := false
    coincidence := false, displayEnable := true, enabled := true
    doneFrame := false, oamAccess := true, vramAccess := true, iflag := 0 }

/-- LCD machine at the start of VBlank (mode 1, zero accumulator,
line 144), display enabled. -/
def lcdVblankDemo : LCDMachine := { lcdLineDemo with mode := .vblank, ly := 144 }

/-! ## Claim theorems -/

/-- C1 (code bug): with IME set, IE = 0x01 and IF = 0x03 the dispatch
loop of `CPU::handle_interrupts` services BOTH pending request bits —
including bit 1, which is not enabled in IE: IF ends fully cleared, PC
is pushed twice (SP drops by 4, the second push storing the first
vector 0x0040), and PC ends at 0x48, the vector of the highest pending
bit, while reporting 12 cycles.  The claim requires exactly one push,
only bit 0 cleared, and PC = 0x40. -/
theorem interrupt_dispatch_services_every_pending_bit :
    (CPU.handleInterrupts interruptDemo).1.pc = 0x48 ∧
    (CPU.handleInterrupts interruptDemo).1.sp = 0xfffa ∧
    (CPU.handleInterrupts interruptDemo).1.iflag = 0 ∧
    (CPU.handleInterrupts interruptDemo).1.ime = false ∧
    (CPU.handleInterrupts interruptDemo).2 = some 12 ∧
    CPU.read (CPU.handleInterrupts interruptDemo).1 0xfffe = 0x12 ∧
    CPU.read (CPU.handleInterrupts interruptDemo).1 0xfffd = 0x34 ∧
    CPU.read (CPU.handleInterrupts interruptDemo).1 0xfffc = 0x00 ∧
    CPU.read (CPU.handleInterrupts interruptDemo).1 0xfffb = 0x40 := by
  decide

/-- C2 (code bug): after `LD BC,0x0102; PUSH BC; POP DE` from SP =
0xFFFE over zeroed memory, DE ends 0x0000 (not 0x0102): `set_bc`
truncates the loaded 0x0102 to BC = 0x0002, `op_push` stores the high
byte at SP and the low byte at SP−1 (not SP−1/SP−2), and `op_pop` reads
from SP−2/SP−1, reassembling 0x0200 which `set_de` truncates to 0.
Only the SP round-trip survives. -/
theorem push_pop_roundtrip_breaks :
    pushPopFinal.regs.d = 0x00 ∧
    pushPopFinal.regs.e = 0x00 ∧
    pushPopFinal.regs.de ≠ 0x0102 ∧
    pushPopFinal.sp = 0xfffe ∧
    CPU.read pushPopAfterPush 0xfffe = 0x00 ∧
    CPU.read pushPopAfterPush 0xfffd = 0x02 ∧
    CPU.read pushPopAfterPush 0xfffc = 0x00 := by
  decide

/-- C3 (code bug): `CPU::new` leaves every register, SP and PC at their
zero defaults even when the memory has no boot ROM, instead of the
post-boot baseline PC=0x0100, SP=0xFFFE, A=0x01, F=0xB0, BC=0x0013,
DE=0x00D8, HL=0x014D that the claim states. -/
theorem cpu_new_zeroes_all_state :
    (CPU.new Memory.new LCDRegs.zero).pc = 0x0000 ∧
    (CPU.new Memory.new LCDRegs.zero).sp = 0x0000 ∧
    (CPU.new Memory.new LCDRegs.zero).regs.a = 0x00 ∧
    (CPU.new Memory.new LCDRegs.zero).regs.f.toU8 = 0x00 ∧
    (CPU.new Memory.new LCDRegs.zero).regs.bc = 0x0000 ∧
    (CPU.new Memory.new LCDRegs.zero).regs.de = 0x0000 ∧
    (CPU.new Memory.new LCDRegs.zero).regs.hl = 0x0000 ∧
    Memory.new.bootrom = [] ∧
    (CPU.new Memory.new LCDRegs.zero).pc ≠ 0x0100 := by
  decide

/-- C5 (code bug): for HL = 0x0800 and rr = 0x0800 the bit-11 carry
condition of the claim holds, yet `op_add_hl` leaves H clear, because
the source computes the half-carry from the bit-7 carry of the two low
bytes; N is cleared and C correctly stays clear. -/
theorem add_hl_half_carry_uses_low_byte :
    ((0x0800 &&& 0x0fff) + (0x0800 &&& 0x0fff) > 0x0fff) ∧
    (opAddHl addHlDemoRegs 0x0800).1.f.halfCarry = false ∧
    (opAddHl addHlDemoRegs 0x0800).1.f.carry = false ∧
    (opAddHl addHlDemoRegs 0x0800).1.f.addSub = false := by
  decide

/-- C9 (code bug): with A = 0x00 and operand 0x10, the half-carry
expression of `op_sub` computes `(A & 0xF0) − (result & 0xF0)` =
`0x00 − 0xF0` in `u8`, which underflows — an overflow-checked build
traps — so SUB (and CP, which calls it) does not complete; the claim
says the operations are total for all inputs. -/
theorem sub_half_carry_subtraction_underflows :
    opSub Registers.default 0x10 = none ∧ opCp Registers.default 0x10 = none := by
  decide

/-- C10 (code bug): each of the 0x1C/0x2C/0x3C INC and 0x1D/0x2D/0x3D
DEC decoder arms stores its result into register C instead of the
register named by the opcode (E, L or A), which stays unchanged. -/
theorem inc_dec_arms_write_register_c :
    ((CPU.handleOp incDecDemo 0x1c).1.regs.c = 0x06 ∧
      (CPU.handleOp incDecDemo 0x1c).1.regs.e = 0x05) ∧
    ((CPU.handleOp incDecDemo 0x2c).1.regs.c = 0x08 ∧
      (CPU.handleOp incDecDemo 0x2c).1.regs.l = 0x07) ∧
    ((CPU.handleOp incDecDemo 0x3c).1.regs.c = 0x0a ∧
      (CPU.handleOp incDecDemo 0x3c).1.regs.a = 0x09) ∧
    ((CPU.handleOp incDecDemo 0x1d).1.regs.c = 0x04 ∧
      (CPU.handleOp incDecDemo 0x1d).1.regs.e = 0x05) ∧
    ((CPU.handleOp incDecDemo 0x2d).1.regs.c = 0x06 ∧
      (CPU.handleOp incDecDemo 0x2d).1.regs.l = 0x07) ∧
    ((CPU.handleOp incDecDemo 0x3d).1.regs.c = 0x08 ∧
      (CPU.handleOp incDecDemo 0x3d).1.regs.a = 0x09) := by
  decide

/-- C4, counterexample: with TAC = 0x04 (enabled, clock 0, rate 1024)
freshly set on a new timer, feeding exactly 1024 master cycles leaves
TIMA at 0 — the loop of `SubTimer::inc` runs only while the accumulator
STRICTLY exceeds the rate — whereas the claim ("exactly once per 1024
cycles", loop condition "accumulator ≥ rate") requires TIMA = 1. -/
theorem timer_1024_cycles_no_increment :
    (Timer.new.setTac 0x04).tac.start = true ∧
    (Timer.new.setTac 0x04).tima.rate = 1024 ∧
    ((Timer.new.setTac 0x04).advance 1024).1.tima.value = 0 := by
  decide

/-- The loop of `SubTimer::inc` does nothing when the accumulator does
not strictly exceed the rate. -/
theorem subTimerLoop_stop (fuel t v r : Nat) (h : ¬ r < t) :
    subTimerLoop fuel t v r = (t, v, false) := by
  cases fuel <;> simp [subTimerLoop, h]

/-- One iteration of the loop of `SubTimer::inc`. -/
theorem subTimerLoop_step (fuel t v r : Nat) (h : r < t) :
    subTimerLoop (fuel + 1) t v r =
      ((subTimerLoop fuel (t - r) ((v + 1) % 256) r).1,
       (subTimerLoop fuel (t - r) ((v + 1) % 256) r).2.1,
       (subTimerLoop fuel (t - r) ((v + 1) % 256) r).2.2 || (((v + 1) % 256) == 0)) := by
  simp [subTimerLoop, h]

/-- With the accumulator in (0, rate] and `rate = 1024`, feeding 1024
cycles to `SubTimer::inc` increments the value exactly once (wrapping
at 256) and returns the accumulator to its starting point. -/
theorem subTimer_inc_once (st : SubTimer) (hrate : st.rate = 1024)
    (hlo : 0 < st.timer) (hhi : st.timer ≤ 1024) :
    st.inc 1024 =
      ({ st with value := (st.value + 1) % 256 }, ((st.value + 1) % 256) == 0) := by
  unfold SubTimer.inc
  obtain ⟨k, hk⟩ : ∃ k, st.timer + 1024 = k + 1 := ⟨st.timer + 1023, by omega⟩
  rw [hk, subTimerLoop_step k (k + 1) st.value st.rate (by omega),
    subTimerLoop_stop k (k + 1 - st.rate) ((st.value + 1) % 256) st.rate (by omega)]
  have htk : k + 1 - st.rate = st.timer := by omega
  simp [htk]

/-- C4 as amended: with TAC enabled at clock 0 (rate 1024) and the
accumulator of the TIMA subtimer in (0, 1024] — the steady state after
the first increment, which itself needs the accumulator to strictly
exceed the rate — feeding 1024 master cycles through
`CPU::advance_timer` increments TIMA exactly once and preserves the
accumulator; on the wrap 0xFF→0x00 TIMA is instead reloaded from TMA
and interrupt-request bit 2 is raised. -/
theorem timer_steady_increment (cs : CPUState) (hstart : cs.timer.tac.start = true)
    (hrate : cs.timer.tima.rate = 1024) (hlo : 0 < cs.timer.tima.timer)
    (hhi : cs.timer.tima.timer ≤ 1024) (hv : cs.timer.tima.value < 256) :
    (CPU.advanceTimer cs 1024).timer.tima.timer = cs.timer.tima.timer ∧
    (CPU.advanceTimer cs 1024).timer.tima.value =
      (if cs.timer.tima.value = 255 then cs.timer.tma else cs.timer.tima.value + 1) ∧
    (CPU.advanceTimer cs 1024).iflag =
      (if cs.timer.tima.value = 255 then cs.iflag ||| 0x04 else cs.iflag) := by
  have hinc := subTimer_inc_once cs.timer.tima hrate hlo hhi
  unfold CPU.advanceTimer Timer.advance
  by_cases h255 : cs.timer.tima.value = 255
  · have hmod : (cs.timer.tima.value + 1) % 256 = 0 := by omega
    simp [hstart, hinc, SubTimer.setTimer, hmod, h255]
  · have hmod : (cs.timer.tima.value + 1) % 256 = cs.timer.tima.value + 1 :=
      Nat.mod_eq_of_lt (by omega)
    simp [hstart, hinc, SubTimer.setTimer, hmod, h255]

/-- C4 witness: the amended theorem applied at the wrap point — a timer
with rate 1024, a full accumulator, TIMA = 0xFF and TMA = 0x42. -/
theorem timer_steady_increment_at_wrap :
    (CPU.advanceTimer timerWrapDemo 1024).timer.tima.timer = timerWrapDemo.timer.tima.timer ∧
    (CPU.advanceTimer timerWrapDemo 1024).timer.tima.value =
      (if timerWrapDemo.timer.tima.value = 255 then timerWrapDemo.timer.tma
       else timerWrapDemo.timer.tima.value + 1) ∧
    (CPU.advanceTimer timerWrapDemo 1024).iflag =
      (if timerWrapDemo.timer.tima.value = 255 then timerWrapDemo.iflag ||| 0x04
       else timerWrapDemo.iflag) :=
  timer_steady_increment timerWrapDemo (by decide) (by decide) (by decide) (by decide) (by decide)

/-- C7, counterexample: a bus read in the unusable region returns 0x00,
not the 0xFF the claim states. -/
theorem unusable_region_reads_zero_not_ff :
    Memory.new.read 0xfea0 = 0x00 ∧ Memory.new.read 0xfea0 ≠ 0xff := by
  decide

/-- C7 as amended: for every address in 0xFEA0–0xFEFF, `Memory::read`
returns 0x00 and `Memory::write` returns the memory completely
unchanged (and in particular does not abort). -/
theorem unusable_region_read_write (m : Memory) (a v : Nat)
    (h1 : 0xfea0 ≤ a) (h2 : a ≤ 0xfeff) :
    m.read a = 0x00 ∧ m.write a v = some m := by
  constructor
  · unfold Memory.read
    rw [if_neg (show ¬a ≤ 0x00ff by omega), if_neg (show ¬a ≤ 0x3fff by omega),
      if_neg (show ¬a ≤ 0x7fff by omega), if_neg (show ¬a ≤ 0x9fff by omega),
      if_neg (show ¬a ≤ 0xbfff by omega),
      if_neg (show ¬((0xc000 ≤ a ∧ a ≤ 0xcfff) ∨ (0xe000 ≤ a ∧ a ≤ 0xefff)) by omega),
      if_neg (show ¬((0xd000 ≤ a ∧ a ≤ 0xdfff) ∨ (0xf000 ≤ a ∧ a ≤ 0xfdff)) by omega),
      if_neg (show ¬(0xfe00 ≤ a ∧ a ≤ 0xfe9f) by omega),
      if_pos (show 0xfea0 ≤ a ∧ a ≤ 0xfeff from ⟨h1, h2⟩)]
  · unfold Memory.write
    rw [if_neg (show ¬a ≤ 0x1fff by omega), if_neg (show ¬a ≤ 0x3fff by omega),
      if_neg (show ¬a ≤ 0x5fff by omega), if_neg (show ¬a ≤ 0x7fff by omega),
      if_neg (show ¬a ≤ 0x9fff by omega), if_neg (show ¬a ≤ 0xbfff by omega),
      if_neg (show ¬((0xc000 ≤ a ∧ a ≤ 0xcfff) ∨ (0xe000 ≤ a ∧ a ≤ 0xefff)) by omega),
      if_neg (show ¬((0xd000 ≤ a ∧ a ≤ 0xdfff) ∨ (0xf000 ≤ a ∧ a ≤ 0xfdff)) by omega),
      if_neg (show ¬(0xfe00 ≤ a ∧ a ≤ 0xfe9f) by omega),
      if_pos (show 0xfea0 ≤ a ∧ a ≤ 0xfeff from ⟨h1, h2⟩)]

/-- C7 witness: the amended theorem applied to the fresh memory at
address 0xFEA0 with written value 0x12. -/
theorem unusable_region_read_write_at_fea0 :
    Memory.new.read 0xfea0 = 0x00 ∧ Memory.new.write 0xfea0 0x12 = some Memory.new :=
  unusable_region_read_write Memory.new 0xfea0 0x12 (by decide) (by decide)

/-- C8: for any buffer of at least 16384 bytes, `Cartridge::with_data`
fails with the checksum error exactly when the fold
`x = x − byte[i] − 1` over 0x0134..=0x014C differs from byte 0x014D;
when they agree the construction never reports a checksum failure
(it may still fail for a non-UTF-8 title or an unknown cartridge type,
and on any error no cartridge value is produced). -/
theorem cart_checksum_error_iff (data : List Nat) (h : 16384 ≤ data.length) :
    (Cartridge.new.withData data = .error .checksumFailed ↔
      headerChecksum data ≠ data.getD 0x014d 0) := by
  constructor
  · intro he
    by_contra hcn
    have hok : Cartridge.new.withData data ≠ Except.error CartError.checksumFailed := by
      unfold Cartridge.withData Cartridge.verifyChecksum
      rw [if_neg (show ¬(data.length < 16384) by omega),
        if_neg (show ¬(headerChecksum data ≠ data.getD 0x014d 0) from fun hne => hne hcn)]
      cases hu : utf8Valid ((data.drop 0x0134).take 11)
      · simp [hu]
      · simp only [hu, Bool.not_true, if_neg]
        cases hf : CartType.fromU8 (data.getD 0x0147 0) <;> simp
    exact hok he
  · intro hc
    unfold Cartridge.withData Cartridge.verifyChecksum
    rw [if_neg (show ¬(data.length < 16384) by omega), if_pos hc]

/-- C8 witness: the checksum theorem applied to the all-zero 16384-byte
image, whose header checksum 0xE7 differs from its byte 0x014D = 0. -/
theorem cart_checksum_error_iff_zero_image :
    16384 ≤ (List.replicate 16384 0).length ∧
      (Cartridge.new.withData (List.replicate 16384 0) = .error .checksumFailed ↔
        headerChecksum (List.replicate 16384 0) ≠ (List.replicate 16384 0).getD 0x014d 0) :=
  have hlen : (List.replicate 16384 (0 : Nat)).length = 16384 := List.length_replicate _ _
  ⟨hlen.ge, cart_checksum_error_iff (List.replicate 16384 0) hlen.ge⟩

/-- `set_mode` always leaves the machine in the requested mode. -/
@[simp] theorem setMode_mode (s : LCDMachine) (m : LCDMode) : (s.setMode m).mode = m := by
  simp only [LCDMachine.setMode]
  split_ifs <;> first | assumption | rfl

/-- `set_mode` does not touch the accumulator. -/
@[simp] theorem setMode_modeTiming (s : LCDMachine) (m : LCDMode) :
    (s.setMode m).modeTiming = s.modeTiming := by
  simp only [LCDMachine.setMode]
  split_ifs <;> rfl

/-- `set_mode` does not touch LY. -/
@[simp] theorem setMode_ly (s : LCDMachine) (m : LCDMode) : (s.setMode m).ly = s.ly := by
  simp only [LCDMachine.setMode]
  split_ifs <;> rfl

/-- `set_mode` does not touch the display-enable bit. -/
@[simp] theorem setMode_displayEnable (s : LCDMachine) (m : LCDMode) :
    (s.setMode m).displayEnable = s.displayEnable := by
  simp only [LCDMachine.setMode]
  split_ifs <;> rfl

/-- `set_mode` does not touch the `enabled` latch. -/
@[simp] theorem setMode_enabled (s : LCDMachine) (m : LCDMode) :
    (s.setMode m).enabled = s.enabled := by
  simp only [LCDMachine.setMode]
  split_ifs <;> rfl

/-- The coincidence check leaves the projection fields alone. -/
@[simp] theorem lycCheck_mode (s : LCDMachine) : s.lycCheck.mode = s.mode := by
  simp only [LCDMachine.lycCheck]
  split_ifs <;> rfl

/-- The coincidence check leaves the accumulator alone. -/
@[simp] theorem lycCheck_modeTiming (s : LCDMachine) : s.lycCheck.modeTiming = s.modeTiming := by
  simp only [LCDMachine.lycCheck]
  split_ifs <;> rfl

/-- The coincidence check leaves LY alone. -/
@[simp] theorem lycCheck_ly (s : LCDMachine) : s.lycCheck.ly = s.ly := by
  simp only [LCDMachine.lycCheck]
  split_ifs <;> rfl

/-- The coincidence check leaves the display-enable bit alone. -/
@[simp] theorem lycCheck_displayEnable (s : LCDMachine) :
    s.lycCheck.displayEnable = s.displayEnable := by
  simp only [LCDMachine.lycCheck]
  split_ifs <;> rfl

/-- The coincidence check leaves the `enabled` latch alone. -/
@[simp] theorem lycCheck_enabled (s : LCDMachine) : s.lycCheck.enabled = s.enabled := by
  simp only [LCDMachine.lycCheck]
  split_ifs <;> rfl

/-- The access gate leaves the mode alone. -/
@[simp] theorem accessGate_mode (s : LCDMachine) : s.accessGate.mode = s.mode := by
  cases hm : s.mode <;> simp [LCDMachine.accessGate, hm]

/-- The access gate leaves the accumulator alone. -/
@[simp] theorem accessGate_modeTiming (s : LCDMachine) :
    s.accessGate.modeTiming = s.modeTiming := by
  cases hm : s.mode <;> simp [LCDMachine.accessGate, hm]

/-- The access gate leaves LY alone. -/
@[simp] theorem accessGate_ly (s : LCDMachine) : s.accessGate.ly = s.ly := by
  cases hm : s.mode <;> simp [LCDMachine.accessGate, hm]

/-- The access gate leaves the display-enable bit alone. -/
@[simp] theorem accessGate_displayEnable (s : LCDMachine) :
    s.accessGate.displayEnable = s.displayEnable := by
  cases hm : s.mode <;> simp [LCDMachine.accessGate, hm]

/-- The access gate leaves the `enabled` latch alone. -/
@[simp] theorem accessGate_enabled (s : LCDMachine) : s.accessGate.enabled = s.enabled := by
  cases hm : s.mode <;> simp [LCDMachine.accessGate, hm]

/-- `modeStep` leaves the display-enable bit alone. -/
@[simp] theorem modeStep_displayEnable (s : LCDMachine) :
    s.modeStep.displayEnable = s.displayEnable := by
  cases hm : s.mode <;> simp only [LCDMachine.modeStep, hm] <;> split_ifs <;>
    simp [setMode_displayEnable]

/-- `modeStep` leaves the `enabled` latch alone. -/
@[simp] theorem modeStep_enabled (s : LCDMachine) : s.modeStep.enabled = s.enabled := by
  cases hm : s.mode <;> simp only [LCDMachine.modeStep, hm] <;> split_ifs <;>
    simp [setMode_enabled]

/-- Components of the projection. -/
@[simp] theorem proj_mode (s : LCDMachine) : s.proj.mode = s.mode := rfl

/-- Accumulator component of the projection. -/
@[simp] theorem proj_t (s : LCDMachine) : s.proj.t = s.modeTiming := rfl

/-- LY component of the projection. -/
@[simp] theorem proj_ly (s : LCDMachine) : s.proj.ly = s.ly := rfl

/-- `modeStep` acts on the projection as `modeTick` acts on the
projection taken before the accumulator bump. -/
theorem modeStep_proj (z : LCDMachine) (pm : LCDMode) (pt pl : Nat)
    (hm : z.mode = pm) (ht : z.modeTiming = pt + 1) (hl : z.ly = pl) :
    z.modeStep.proj = modeTick ⟨pm, pt, pl⟩ := by
  cases pm <;>
    · unfold LCDMachine.modeStep modeTick
      simp only [hm, ht, hl]
      split_ifs <;> simp [LCDMachine.proj, hm, ht, hl]

/-- On an enabled display, one cycle of `LCD::advance` acts on the
(mode, accumulator, LY) projection as `modeTick`, and leaves the
display-enable/`enabled` pair set. -/
theorem advance_one_proj (s : LCDMachine) (hd : s.displayEnable = true)
    (he : s.enabled = true) :
    (s.advance 1).proj = modeTick s.proj ∧
    (s.advance 1).displayEnable = true ∧ (s.advance 1).enabled = true := by
  have hadv : s.advance 1 =
      ({ s with
          doneFrame := false, oamAccess := true, vramAccess := true,
          modeTiming := s.modeTiming + 1 } : LCDMachine).modeStep.lycCheck.accessGate := by
    unfold LCDMachine.advance
    rw [if_neg (by simp [hd]), if_neg (by simp [he])]
  rw [hadv]
  refine ⟨?_, ?_, ?_⟩
  · have := modeStep_proj
      ({ s with
          doneFrame := false, oamAccess := true, vramAccess := true,
          modeTiming := s.modeTiming + 1 } : LCDMachine)
      s.mode s.modeTiming s.ly rfl rfl rfl
    simp only [LCDMachine.proj, accessGate_mode, accessGate_modeTiming, accessGate_ly,
      lycCheck_mode, lycCheck_modeTiming, lycCheck_ly]
    simp only [LCDMachine.proj] at this
    rw [this]
  · simp [hd]
  · simp [he]

/-- Iterating single-cycle `LCD::advance` from an enabled display tracks
`modeTicks` on the projection. -/
theorem ticks_proj (s : LCDMachine) (hd : s.displayEnable = true)
    (he : s.enabled = true) (n : Nat) :
    (s.ticks n).proj = modeTicks s.proj n ∧
    (s.ticks n).displayEnable = true ∧ (s.ticks n).enabled = true := by
  induction n with
  | zero => exact ⟨rfl, hd, he⟩
  | succ n ih =>
    obtain ⟨hp, hdn, hen⟩ := ih
    obtain ⟨hstep, hd1, he1⟩ := advance_one_proj (s.ticks n) hdn hen
    refine ⟨?_, hd1, he1⟩
    show ((s.ticks n).advance 1).proj = modeTick (modeTicks s.proj n)
    rw [hstep, hp]

/-- One `modeTick` advances the visible-scanline closed form. -/
theorem lineModeAt_step (ly t : Nat) (hly : ly < 144) (ht : t < 456) :
    modeTick (lineModeAt ly t) = lineModeAt ly (t + 1) := by
  have hmod : (ly + 1) % 256 = ly + 1 := Nat.mod_eq_of_lt (by omega)
  rcases Nat.lt_or_ge t 80 with h80 | h80
  · have hL : lineModeAt ly t = ⟨.oam, t, ly⟩ := by
      unfold lineModeAt; rw [if_pos h80]
    rcases Nat.lt_or_ge (t + 1) 80 with h81 | h81
    · have hR : lineModeAt ly (t + 1) = ⟨.oam, t + 1, ly⟩ := by
        unfold lineModeAt; rw [if_pos h81]
      rw [hL, hR]
      simp only [modeTick]
      rw [if_neg (show ¬(t + 1 ≥ 80) by omega)]
    · have hR : lineModeAt ly (t + 1) = ⟨.vram, t + 1 - 80, ly⟩ := by
        unfold lineModeAt; rw [if_neg (by omega), if_pos (by omega)]
      rw [hL, hR]
      simp only [modeTick]
      rw [if_pos (show t + 1 ≥ 80 by omega)]
  · rcases Nat.lt_or_ge t 252 with h252 | h252
    · have hL : lineModeAt ly t = ⟨.vram, t - 80, ly⟩ := by
        unfold lineModeAt; rw [if_neg (by omega), if_pos h252]
      rcases Nat.lt_or_ge (t + 1) 252 with h253 | h253
      · have hR : lineModeAt ly (t + 1) = ⟨.vram, t + 1 - 80, ly⟩ := by
          unfold lineModeAt; rw [if_neg (by omega), if_pos h253]
        rw [hL, hR]
        simp only [modeTick]
        rw [if_neg (show ¬(t - 80 + 1 ≥ 172) by omega),
          show t - 80 + 1 = t + 1 - 80 by omega]
      · have hR : lineModeAt ly (t + 1) = ⟨.hblank, t + 1 - 252, ly⟩ := by
          unfold lineModeAt; rw [if_neg (by omega), if_neg (by omega), if_pos (by omega)]
        rw [hL, hR]
        simp only [modeTick]
        rw [if_pos (show t - 80 + 1 ≥ 172 by omega),
          show t - 80 + 1 - 172 = t + 1 - 252 by omega]
    · have hL : lineModeAt ly t = ⟨.hblank, t - 252, ly⟩ := by
        unfold lineModeAt; rw [if_neg (by omega), if_neg (by omega), if_pos ht]
      rcases Nat.lt_or_ge (t + 1) 456 with h456 | h456
      · have hR : lineModeAt ly (t + 1) = ⟨.hblank, t + 1 - 252, ly⟩ := by
          unfold lineModeAt; rw [if_neg (by omega), if_neg (by omega), if_pos h456]
        rw [hL, hR]
        simp only [modeTick]
        rw [if_neg (show ¬(t - 252 + 1 ≥ 204) by omega),
          show t - 252 + 1 = t + 1 - 252 by omega]
      · have hR : lineModeAt ly (t + 1) =
            ⟨if ly + 1 ≥ 144 then .vblank else .oam, 0, ly + 1⟩ := by
          unfold lineModeAt
          rw [if_neg (by omega), if_neg (by omega), if_neg (by omega)]
        rw [hL, hR]
        simp only [modeTick]
        rw [if_pos (show t - 252 + 1 ≥ 204 by omega), hmod,
          show t - 252 + 1 - 204 = 0 by omega]

/-- One `modeTick` advances the VBlank closed form. -/
theorem vblankModeAt_step (t : Nat) (ht : t < 4560) :
    modeTick (vblankModeAt t) = vblankModeAt (t + 1) := by
  have hmod : ((t + 1) / 456 + 144) % 256 = (t + 1) / 456 + 144 := by omega
  have hL : vblankModeAt t = ⟨.vblank, t, t / 456 + 144⟩ := by
    unfold vblankModeAt; rw [if_pos ht]
  rcases Nat.lt_or_ge (t + 1) 4560 with h2 | h2
  · have hR : vblankModeAt (t + 1) = ⟨.vblank, t + 1, (t + 1) / 456 + 144⟩ := by
      unfold vblankModeAt; rw [if_pos h2]
    rw [hL, hR]
    simp only [modeTick]
    rw [if_neg (show ¬(t + 1 ≥ 4560) by omega), hmod]
  · have hR : vblankModeAt (t + 1) = ⟨.oam, 0, 0⟩ := by
      unfold vblankModeAt; rw [if_neg (by omega)]
    rw [hL, hR]
    simp only [modeTick]
    rw [if_pos (show t + 1 ≥ 4560 by omega), show t + 1 - 4560 = 0 by omega]

/-- The projected machine follows the scanline closed form for the
whole 456-cycle line. -/
theorem modeTicks_line (ly : Nat) (hly : ly < 144) :
    ∀ t, t ≤ 456 → modeTicks (lineModeAt ly 0) t = lineModeAt ly t := by
  intro t
  induction t with
  | zero => intro _; rfl
  | succ n ih =>
    intro h
    show modeTick (modeTicks (lineModeAt ly 0) n) = _
    rw [ih (by omega), lineModeAt_step ly n hly (by omega)]

/-- The projected machine follows the VBlank closed form for the whole
4560-cycle blank. -/
theorem modeTicks_vblank :
    ∀ t, t ≤ 4560 → modeTicks (vblankModeAt 0) t = vblankModeAt t := by
  intro t
  induction t with
  | zero => intro _; rfl
  | succ n ih =>
    intro h
    show modeTick (modeTicks (vblankModeAt 0) n) = _
    rw [ih (by omega), vblankModeAt_step n (by omega)]

/-- C6: with the display enabled, a scanline that starts on line
`ly < 144` in mode 2 with a zero accumulator spends cycles 0–79 in
mode 2, 80–251 in mode 3 and 252–455 in mode 0 (80 + 172 + 204 = 456
cycles), after which line `ly+1` begins with a zero accumulator — in
mode 2 again, or in mode 1 when line 144 is reached; from the start of
VBlank (mode 1, line 144) the machine stays in mode 1 for exactly 4560
cycles and then resumes line 0 in mode 2 with a zero accumulator. -/
theorem ppu_mode_state_machine (s : LCDMachine)
    (hd : s.displayEnable = true) (he : s.enabled = true) :
    (s.mode = .oam → s.modeTiming = 0 → s.ly < 144 →
      ((∀ t, t < 80 → (s.ticks t).mode = .oam) ∧
       (∀ t, 80 ≤ t → t < 252 → (s.ticks t).mode = .vram) ∧
       (∀ t, 252 ≤ t → t < 456 → (s.ticks t).mode = .hblank) ∧
       (s.ticks 456).mode = (if s.ly + 1 < 144 then LCDMode.oam else LCDMode.vblank) ∧
       (s.ticks 456).modeTiming = 0 ∧ (s.ticks 456).ly = s.ly + 1)) ∧
    (s.mode = .vblank → s.modeTiming = 0 → s.ly = 144 →
      ((∀ t, t < 4560 → (s.ticks t).mode = .vblank) ∧
       (s.ticks 4560).mode = .oam ∧ (s.ticks 4560).modeTiming = 0 ∧
       (s.ticks 4560).ly = 0)) := by
  constructor
  · intro hm h0 hly
    have hproj : s.proj = lineModeAt s.ly 0 := by
      unfold lineModeAt LCDMachine.proj
      rw [if_pos (by omega), hm, h0]
    have key : ∀ t, t ≤ 456 → (s.ticks t).proj = lineModeAt s.ly t := by
      intro t htle
      rw [(ticks_proj s hd he t).1, hproj, modeTicks_line s.ly hly t htle]
    have mode_eq : ∀ t, t ≤ 456 → (s.ticks t).mode = (lineModeAt s.ly t).mode := by
      intro t htle
      have := congrArg ModeProj.mode (key t htle)
      exact this
    refine ⟨?_, ?_, ?_, ?_, ?_, ?_⟩
    · intro t htl
      rw [mode_eq t (by omega)]
      unfold lineModeAt
      rw [if_pos htl]
    · intro t htg htl
      rw [mode_eq t (by omega)]
      unfold lineModeAt
      rw [if_neg (by omega), if_pos htl]
    · intro t htg htl
      rw [mode_eq t (by omega)]
      unfold lineModeAt
      rw [if_neg (by omega), if_neg (by omega), if_pos htl]
    · rw [mode_eq 456 le_rfl]
      unfold lineModeAt
      rw [if_neg (by omega), if_neg (by omega), if_neg (by omega)]
      by_cases hc : s.ly + 1 < 144
      · rw [if_pos hc, if_neg (by omega)]
      · rw [if_neg hc, if_pos (by omega)]
    · have := congrArg ModeProj.t (key 456 le_rfl)
      rw [proj_t] at this
      rw [this]
      unfold lineModeAt
      rw [if_neg (by omega), if_neg (by omega), if_neg (by omega)]
    · have := congrArg ModeProj.ly (key 456 le_rfl)
      rw [proj_ly] at this
      rw [this]
      unfold lineModeAt
      rw [if_neg (by omega), if_neg (by omega), if_neg (by omega)]
  · intro hm h0 hly
    have hproj : s.proj = vblankModeAt 0 := by
      unfold vblankModeAt LCDMachine.proj
      rw [if_pos (by omega), hm, h0, hly]
    have key : ∀ t, t ≤ 4560 → (s.ticks t).proj = vblankModeAt t := by
      intro t htle
      rw [(ticks_proj s hd he t).1, hproj, modeTicks_vblank t htle]
    refine ⟨?_, ?_, ?_, ?_⟩
    · intro t htl
      have := congrArg ModeProj.mode (key t (by omega))
      rw [proj_mode] at this
      rw [this]
      unfold vblankModeAt
      rw [if_pos htl]
    · have := congrArg ModeProj.mode (key 4560 le_rfl)
      rw [proj_mode] at this
      rw [this]
      unfold vblankModeAt
      rw [if_neg (by omega)]
    · have := congrArg ModeProj.t (key 4560 le_rfl)
      rw [proj_t] at this
      rw [this]
      unfold vblankModeAt
      rw [if_neg (by omega)]
    · have := congrArg ModeProj.ly (key 4560 le_rfl)
      rw [proj_ly] at this
      rw [this]
      unfold vblankModeAt
      rw [if_neg (by omega)]

/-- C6 witness: the mode-machine theorem applied at the start of
line 0 (mode 2) and, for the VBlank half, at the start of VBlank
(mode 1, line 144). -/
theorem ppu_mode_state_machine_on_line0 :
    ((∀ t, t < 80 → (lcdLineDemo.ticks t).mode = .oam) ∧
     (∀ t, 80 ≤ t → t < 252 → (lcdLineDemo.ticks t).mode = .vram) ∧
     (∀ t, 252 ≤ t → t < 456 → (lcdLineDemo.ticks t).mode = .hblank) ∧
     (lcdLineDemo.ticks 456).mode =
       (if lcdLineDemo.ly + 1 < 144 then LCDMode.oam else LCDMode.vblank) ∧
     (lcdLineDemo.ticks 456).modeTiming = 0 ∧
     (lcdLineDemo.ticks 456).ly = lcdLineDemo.ly + 1) ∧
    ((∀ t, t < 4560 → (lcdVblankDemo.ticks t).mode = .vblank) ∧
     (lcdVblankDemo.ticks 4560).mode = .oam ∧
     (lcdVblankDemo.ticks 4560).modeTiming = 0 ∧
     (lcdVblankDemo.ticks 4560).ly = 0) :=
  ⟨(ppu_mode_state_machine lcdLineDemo rfl rfl).1 rfl rfl (by decide),
   (ppu_mode_state_machine lcdVblankDemo rfl rfl).2 rfl rfl rfl⟩

end GeeBee
